import Mathlib

/-!
Formal model of the AutoGLM-GUI core subsystems, translated from the Python
sources: `AutoGLM_GUI/device_manager.py` (connection priority, poll backoff),
`AutoGLM_GUI/phone_agent_manager.py` (per-device locking and agent lifecycle),
`AutoGLM_GUI/scrcpy_stream.py` (H.264 NAL scanning and the SPS/PPS/IDR cache),
and `AutoGLM_GUI/scrcpy_protocol.py` / `AutoGLM_GUI/socketio_server.py`
(handshake metadata).

Modelling conventions: Python bytes are `List Nat` (each entry one byte),
dicts keyed by device id are total functions `String → Option _`,
`threading.Lock` is the list of its current holders (empty list = unlocked;
that the list never exceeds one element is proved, not assumed), and float
timestamps/intervals are `ℚ` (every value arising here is exact in binary
floating point).
-/

namespace AutoGLM

/-! ### device_manager.py lines 29-61: DeviceConnection and priority_score -/

/-- Transport kinds from phone_agent.adb.connection.ConnectionType as used by
device_manager.py (USB, WIFI, REMOTE); `other` stands for any value outside
the `type_priority` table, which scores 0 through `dict.get(..., 0)`. -/
inductive ConnectionType
  | usb
  | wifi
  | remote
  | other
deriving DecidableEq, Repr, Inhabited

/-- DeviceConnection (device_manager.py lines 29-36): one connection method for
a device.  The `last_seen` timestamp is omitted: no claim mentions it and it
does not feed `priority_score`. -/
structure DeviceConnection where
  device_id : String
  connection_type : ConnectionType
  status : String
deriving DecidableEq, Repr, Inhabited

/-- DeviceConnection.priority_score (device_manager.py lines 38-61):
`type_priority = {USB: 300, WIFI: 200, REMOTE: 200}` and
`status_priority = {"device": 30, "offline": 20, "unauthorized": 10}`, both
looked up with default 0, summed. -/
def priority_score (c : DeviceConnection) : Nat :=
  (match c.connection_type with
    | .usb => 300
    | .wifi => 200
    | .remote => 200
    | .other => 0) +
  (if c.status = "device" then 30
   else if c.status = "offline" then 20
   else if c.status = "unauthorized" then 10
   else 0)

/-- The ordering realised by `sorted(enumerate(conns), key=score, reverse=True)`
in ManagedDevice.select_primary_connection (device_manager.py lines 109-121).
CPython's sort is stable, so on the enumerated pairs the result is the unique
list ordered by descending score with the original index as tiebreaker; this
boolean relation encodes exactly that total order. -/
def connSortLe (a b : Nat × DeviceConnection) : Bool :=
  decide (priority_score b.2 < priority_score a.2 ∨
    (priority_score a.2 = priority_score b.2 ∧ a.1 ≤ b.1))

/-- ManagedDevice.select_primary_connection (device_manager.py lines 109-121):
if the connection list is empty, keep the current index; otherwise take the
original index of the head of the stably descending-sorted enumerated list
(`sorted_conns[0][0]`). -/
def select_primary_connection (conns : List DeviceConnection) (idx : Nat) : Nat :=
  if conns.isEmpty then idx
  else ((conns.enum.mergeSort connSortLe).headI).1

/-! ### device_manager.py lines 264-274, 482-500 and 730-743: poll backoff -/

/-- The exponential-backoff fields of DeviceManager (device_manager.py lines
269-274): consecutive failure count, current interval, and the constants
min_interval (base, 10s), max_interval (cap, 60s), backoff_multiplier (2). -/
structure PollBackoffState where
  consecutive_failures : Nat
  current_interval : ℚ
  min_interval : ℚ
  max_interval : ℚ
  backoff_multiplier : ℚ
deriving DecidableEq, Repr

/-- The backoff state as initialised in DeviceManager.__init__ (lines 269-274). -/
def initial_backoff : PollBackoffState :=
  { consecutive_failures := 0
    current_interval := 10
    min_interval := 10
    max_interval := 60
    backoff_multiplier := 2 }

/-- DeviceManager._handle_poll_error (device_manager.py lines 730-743):
increment the failure count, then set
`current_interval = min(min_interval * multiplier ** failures, max_interval)`. -/
def handle_poll_error (s : PollBackoffState) : PollBackoffState :=
  { s with
    consecutive_failures := s.consecutive_failures + 1
    current_interval :=
      min (s.min_interval * s.backoff_multiplier ^ (s.consecutive_failures + 1))
        s.max_interval }

/-- The success branch of DeviceManager._polling_loop (device_manager.py lines
486-494): a cycle that completes without exception resets the failure count to
0 and the interval to the base value. -/
def polling_loop_success (s : PollBackoffState) : PollBackoffState :=
  { s with consecutive_failures := 0, current_interval := s.min_interval }

/-! ### phone_agent_manager.py: manager state, locks and lifecycle -/

/-- AgentState (phone_agent_manager.py lines 25-31). -/
inductive AgentState
  | idle
  | busy
  | error
  | initializing
deriving DecidableEq, Repr

/-- ModelConfig from phone_agent.model, with the fields AutoGLM_GUI constructs
it from (phone_agent_manager.py line 371). -/
structure ModelConfig where
  base_url : String
  api_key : String
  model_name : String
deriving DecidableEq, Repr

/-- AgentConfig from phone_agent.agent, as constructed in AutoGLM_GUI
(phone_agent_manager.py line 377). -/
structure AgentConfig where
  device_id : String
deriving DecidableEq, Repr

/-- The PhoneAgent fields manipulated by PhoneAgentManager: the private
working context `_context` (a byte-level value, modelled as `List Nat`) and
the `_step_count` counter (phone_agent_manager.py lines 304-305, 325-326). -/
structure PhoneAgent where
  context : List Nat
  step_count : Nat
deriving DecidableEq, Repr

/-- AgentMetadata (phone_agent_manager.py lines 34-44); timestamps are `Nat`
ticks supplied by the caller in place of time.time(). -/
structure AgentMetadata where
  device_id : String
  state : AgentState
  model_config : ModelConfig
  agent_config : AgentConfig
  created_at : Nat
  last_used : Nat
  error_message : Option String
deriving DecidableEq, Repr

/-- Combined mutable state of PhoneAgentManager together with the module-level
dicts `state.agents` and `state.agent_configs` it stores into.  Each
`threading.Lock` in `_device_locks` is modelled by the list of current holders
of the lock (`[]` = unlocked); `_get_device_lock`'s atomic get-or-create makes
the lock map total. -/
structure MgrState where
  agents : String → Option PhoneAgent
  agent_configs : String → Option (ModelConfig × AgentConfig)
  metadata : String → Option AgentMetadata
  states : String → Option AgentState
  holders : String → List Nat

/-- Pointwise update of a string-keyed map. -/
def upd {α : Type} (f : String → α) (k : String) (v : α) : String → α :=
  fun x => if x = k then v else f x

/-- A fresh manager: no agents, configs, metadata or states, all locks free. -/
def initial_mgr : MgrState :=
  { agents := fun _ => none
    agent_configs := fun _ => none
    metadata := fun _ => none
    states := fun _ => none
    holders := fun _ => [] }

/-- The error taxonomy of AutoGLM_GUI.exceptions as raised by the manager:
DeviceBusyError, AgentInitializationError, AgentNotInitializedError. -/
inductive AgentError
  | deviceBusy
  | initializationFailed
  | notInitialized
deriving DecidableEq, Repr

/-- Lock-acquisition timeout policy of acquire_device (phone_agent_manager.py
lines 524-579): `blocking` is `timeout=None`; `nonBlocking` is `timeout=0`;
`bounded e` is a positive timeout, where `e` records whether the bounded wait
expired without the lock becoming free. -/
inductive TimeoutPolicy
  | blocking
  | nonBlocking
  | bounded (expired : Bool)
deriving DecidableEq, Repr

/-- Outcome of one acquire_device call: `acquired`; `busyError` (raises
DeviceBusyError); `busyFalse` (returns False when raise_on_timeout is False);
`blocked` marks a blocking or unexpired bounded wait that has not resolved at
this instant; `notInitialized` raises AgentNotInitializedError. -/
inductive AcquireResult
  | acquired
  | busyError
  | busyFalse
  | blocked
  | notInitialized
deriving DecidableEq, Repr

/-- PhoneAgentManager.acquire_device (phone_agent_manager.py lines 524-579).
The caller identity `tid` is ghost data recording who took the lock (the
Python lock stores no owner).  On success the device state is set to BUSY and
metadata.last_used refreshed; when the lock is already held, a non-blocking
or expired bounded acquisition observes DeviceBusy — an exception or a False
return according to raise_on_timeout — and changes nothing. -/
def acquire_device (s : MgrState) (d : String) (tid : Nat)
    (timeout : TimeoutPolicy) (raise_on_timeout : Bool) (now : Nat) :
    MgrState × AcquireResult :=
  if s.agents d = none then (s, .notInitialized)
  else if s.holders d = [] then
    ({ s with
        holders := upd s.holders d [tid]
        states := upd s.states d (some .busy)
        metadata := upd s.metadata d
          ((s.metadata d).map (fun m => { m with last_used := now })) },
      .acquired)
  else
    match timeout with
    | .nonBlocking => (s, if raise_on_timeout then .busyError else .busyFalse)
    | .bounded true => (s, if raise_on_timeout then .busyError else .busyFalse)
    | .bounded false => (s, .blocked)
    | .blocking => (s, .blocked)

/-- PhoneAgentManager.release_device (phone_agent_manager.py lines 581-597):
if the device lock is currently locked, release it and set the state to IDLE.
The function receives no caller identity and performs no ownership check,
exactly as in the source. -/
def release_device (s : MgrState) (d : String) : MgrState :=
  if s.holders d = [] then s
  else
    { s with
      holders := upd s.holders d []
      states := upd s.states d (some .idle) }

/-- The part of PhoneAgentManager.initialize_agent after its idempotency
early return (phone_agent_manager.py lines 161-207): the non-blocking
`device_lock.locked()` check raising DeviceBusyError, the INITIALIZING state,
and either the successful registration or the rollback on constructor
failure.  `ctor` is the outcome of the `PhoneAgent(...)` constructor, `none`
modelling the constructor raising; `now` stands for time.time(). -/
def initialize_agent_body (s : MgrState) (d : String) (mc : ModelConfig)
    (ac : AgentConfig) (ctor : Option PhoneAgent) (now : Nat) :
    MgrState × Except AgentError PhoneAgent :=
  if s.holders d ≠ [] then (s, .error .deviceBusy)
  else
    let s1 : MgrState :=
      { s with states := upd s.states d (some .initializing) }
    match ctor with
    | none =>
      ({ s1 with
          agents := upd s1.agents d none
          agent_configs := upd s1.agent_configs d none
          metadata := upd s1.metadata d none
          states := upd s1.states d (some .error) },
        .error .initializationFailed)
    | some agent =>
      ({ s1 with
          agents := upd s1.agents d (some agent)
          agent_configs := upd s1.agent_configs d (some (mc, ac))
          metadata := upd s1.metadata d (some
            { device_id := d
              state := .idle
              model_config := mc
              agent_config := ac
              created_at := now
              last_used := now
              error_message := none })
          states := upd s1.states d (some .idle) },
        .ok agent)

/-- PhoneAgentManager.initialize_agent (phone_agent_manager.py lines 122-207):
`if device_id in agents and not force: return agents[device_id]`, otherwise
run the body above. -/
def initialize_agent (s : MgrState) (d : String) (mc : ModelConfig)
    (ac : AgentConfig) (force : Bool) (ctor : Option PhoneAgent) (now : Nat) :
    MgrState × Except AgentError PhoneAgent :=
  match s.agents d with
  | some a =>
    if force then initialize_agent_body s d mc ac ctor now else (s, .ok a)
  | none => initialize_agent_body s d mc ac ctor now

/-- Outcome of a use_streaming_agent turn: completed with the final value of
the stop event, refused busy (DeviceBusyError re-raised from acquire_device),
or failed before the turn began. -/
inductive StreamingOutcome
  | completed (stopped : Bool)
  | busy
  | failed
deriving DecidableEq, Repr

/-- PhoneAgentManager.use_streaming_agent (phone_agent_manager.py lines
247-338).  `body` is the code run at the `yield`: it receives the streaming
agent — whose working context and step counter were copied from the canonical
agent while the device lock is held — and returns that agent as mutated by
the turn, together with the final value of the per-turn stop event (`true` =
aborted).  In the finally block the private context and counter are copied
back onto the canonical agent only when the stop event is not set, and the
device lock, when acquired, is always released.  The registration and cleanup
of `_streaming_contexts`/`_abort_events` (lines 307-314, 331-334) is
bookkeeping for abort lookups with no effect on agents or locks and is not
modelled. -/
def use_streaming_agent (s : MgrState) (d : String) (tid : Nat)
    (timeout : TimeoutPolicy) (body : PhoneAgent → PhoneAgent × Bool)
    (now : Nat) : MgrState × StreamingOutcome :=
  match acquire_device s d tid timeout true now with
  | (s1, .acquired) =>
    match s1.agents d with
    | none => (release_device s1 d, .failed)
    | some orig =>
      let streaming0 : PhoneAgent :=
        { context := orig.context, step_count := orig.step_count }
      let run := body streaming0
      let s2 : MgrState :=
        if run.2 then s1
        else
          match s1.agents d with
          | some o =>
            { s1 with
              agents := upd s1.agents d (some
                { o with
                  context := run.1.context
                  step_count := run.1.step_count }) }
          | none => s1
      (release_device s2 d, .completed run.2)
  | (s1, _) => (s1, .busy)

/-- One event against the per-device locks: an acquisition attempt through
acquire_device (as performed by use_agent, use_streaming_agent or a direct
call) or a release through release_device. -/
inductive LockEv
  | tryAcquire (d : String) (tid : Nat) (timeout : TimeoutPolicy)
      (raise_on_timeout : Bool) (now : Nat)
  | release (d : String)

/-- Apply one lock event to the manager state. -/
def applyLockEv (s : MgrState) : LockEv → MgrState
  | .tryAcquire d tid timeout r now => (acquire_device s d tid timeout r now).1
  | .release d => release_device s d

/-- Apply a sequence of lock events. -/
def applyLockEvents (s : MgrState) (es : List LockEv) : MgrState :=
  es.foldl applyLockEv s

/-! ### scrcpy_stream.py: NAL scanning and the SPS/PPS/IDR reconnection cache -/

/-- The reconnection-cache fields of ScrcpyStreamer (scrcpy_stream.py lines
41-48). -/
structure ScrcpyCache where
  cached_sps : Option (List Nat)
  cached_pps : Option (List Nat)
  cached_idr : Option (List Nat)
  sps_pps_locked : Bool
deriving DecidableEq, Repr

/-- The cache as initialised in ScrcpyStreamer.__init__ (lines 44-47). -/
def initial_cache : ScrcpyCache :=
  { cached_sps := none
    cached_pps := none
    cached_idr := none
    sps_pps_locked := false }

/-- Python `data[i:i+4] == b"\x00\x00\x00\x01"`: a slice shorter than four
bytes never equals the four-byte literal, hence the explicit bound. -/
def isStart4 (d : List Nat) (i : Nat) : Bool :=
  decide (i + 4 ≤ d.length) && (d.getD i 2 == 0) && (d.getD (i + 1) 2 == 0) &&
    (d.getD (i + 2) 2 == 0) && (d.getD (i + 3) 2 == 1)

/-- Python `data[i:i+3] == b"\x00\x00\x01"`. -/
def isStart3 (d : List Nat) (i : Nat) : Bool :=
  decide (i + 3 ≤ d.length) && (d.getD i 2 == 0) && (d.getD (i + 1) 2 == 0) &&
    (d.getD (i + 2) 2 == 1)

/-- The inner while loop of ScrcpyStreamer._find_nal_units (scrcpy_stream.py
lines 336-345): starting from `ns`, advance to the next start code; if none
occurs before `len(data) - 3`, the loop's else clause yields `len(data)`.
The loop advances `ns` by one per iteration, so `d.length` iterations always
suffice; the structural `fuel` argument is instantiated with that bound. -/
def find_next_start_aux (d : List Nat) : Nat → Nat → Nat
  | 0, _ => d.length
  | fuel + 1, ns =>
    if ns < d.length - 3 then
      if isStart4 d ns || isStart3 d ns then ns
      else find_next_start_aux d fuel (ns + 1)
    else d.length

/-- Entry point of the inner start-code search. -/
def find_next_start (d : List Nat) (ns : Nat) : Nat :=
  find_next_start_aux d d.length ns

/-- ScrcpyStreamer._find_nal_units (scrcpy_stream.py lines 308-352): scan for
Annex-B start codes; each unit is `(start_pos, nal_type, nal_size)` where
`start_pos` is the position of the start code, `nal_type` the low 5 bits
(the 0x1F mask) of the byte after it, and `nal_size` runs from the start code
to the next start code or the buffer end.  The outer loop advances `i` by at
least one per iteration, so `d.length + 1` units of fuel always suffice. -/
def find_nal_units_aux (d : List Nat) : Nat → Nat → List (Nat × Nat × Nat)
  | 0, _ => []
  | fuel + 1, i =>
    if i < d.length - 4 then
      if isStart4 d i then
        if d.length ≤ i + 4 then []
        else
          let nal_type := d.getD (i + 4) 0 % 32
          let next := find_next_start d (i + 5)
          (i, nal_type, next - i) :: find_nal_units_aux d fuel next
      else if isStart3 d i then
        if d.length ≤ i + 3 then []
        else
          let nal_type := d.getD (i + 3) 0 % 32
          let next := find_next_start d (i + 4)
          (i, nal_type, next - i) :: find_nal_units_aux d fuel next
      else find_nal_units_aux d fuel (i + 1)
    else []

/-- Entry point of the NAL scan (`_find_nal_units(data)` with `i = 0`). -/
def find_nal_units (d : List Nat) : List (Nat × Nat × Nat) :=
  find_nal_units_aux d (d.length + 1) 0

/-- One iteration of the for-loop in ScrcpyStreamer._cache_nal_units
(scrcpy_stream.py lines 363-410) on a unit `(start, nal_type, size)` with
`nal_data = data[start : start + size]`: an SPS (type 7) is accepted only
while not locked, with size at least 10 and no SPS cached yet; a PPS (type 8)
only while not locked, with size at least 6 and no PPS cached yet; an IDR
(type 5) always replaces the cached keyframe provided both SPS and PPS are
already cached. -/
def cache_nal_step (data : List Nat) (st : ScrcpyCache) (u : Nat × Nat × Nat) :
    ScrcpyCache :=
  let nal_data := (data.drop u.1).take u.2.2
  if u.2.1 = 7 then
    if st.sps_pps_locked then st
    else if 10 ≤ u.2.2 ∧ st.cached_sps = none then
      { st with cached_sps := some nal_data }
    else st
  else if u.2.1 = 8 then
    if st.sps_pps_locked then st
    else if 6 ≤ u.2.2 ∧ st.cached_pps = none then
      { st with cached_pps := some nal_data }
    else st
  else if u.2.1 = 5 then
    if st.cached_sps ≠ none ∧ st.cached_pps ≠ none then
      { st with cached_idr := some nal_data }
    else st
  else st

/-- The final check of ScrcpyStreamer._cache_nal_units (scrcpy_stream.py
lines 412-415): set the lock once both parameter sets are cached. -/
def lock_after_pass (st1 : ScrcpyCache) : ScrcpyCache :=
  if st1.cached_sps ≠ none ∧ st1.cached_pps ≠ none ∧ st1.sps_pps_locked = false
  then { st1 with sps_pps_locked := true }
  else st1

/-- ScrcpyStreamer._cache_nal_units (scrcpy_stream.py lines 354-415): fold the
capture step over the scanned units, then run the final lock check. -/
def cache_nal_units (st : ScrcpyCache) (data : List Nat) : ScrcpyCache :=
  lock_after_pass ((find_nal_units data).foldl (cache_nal_step data) st)

/-- The keyframe value left by one scan of `data` when folding only the IDR
updates: the data of the last type-5 unit found, or the previous value if the
scan contains none.  Used to state what the capture pass does to the keyframe
cache. -/
def last_idr_after (data : List Nat) (idr0 : Option (List Nat)) :
    Option (List Nat) :=
  (find_nal_units data).foldl
    (fun acc u =>
      if u.2.1 = 5 then some ((data.drop u.1).take u.2.2) else acc) idr0

/-- ScrcpyStreamer.read_h264_chunk (scrcpy_stream.py lines 498-541) as far as
cache state is concerned: an empty recv means the socket was closed
(ConnectionError); otherwise the received data is unconditionally passed
through _cache_nal_units and returned unchanged.  The method's signature
offers no way to disable the caching pass; its callers in api/media.py lines
123 and 218 nevertheless pass `auto_cache=False`, a parameter this function
does not accept. -/
def read_h264_chunk (st : ScrcpyCache) (data : List Nat) :
    Except String (ScrcpyCache × List Nat) :=
  if data.isEmpty then .error "Socket closed by remote"
  else .ok (cache_nal_units st data, data)

/-! ### scrcpy_protocol.py and the handshake metadata parse -/

/-- scrcpy_protocol.py line 8. -/
def SCRCPY_CODEC_H264 : Nat := 0x68323634

/-- scrcpy_protocol.py line 9. -/
def SCRCPY_CODEC_H265 : Nat := 0x68323635

/-- scrcpy_protocol.py line 10. -/
def SCRCPY_CODEC_AV1 : Nat := 0x00617631

/-- SCRCPY_CODEC_NAME_TO_ID (scrcpy_protocol.py lines 12-16). -/
def SCRCPY_CODEC_NAME_TO_ID (name : String) : Option Nat :=
  if name = "h264" then some SCRCPY_CODEC_H264
  else if name = "h265" then some SCRCPY_CODEC_H265
  else if name = "av1" then some SCRCPY_CODEC_AV1
  else none

/-- SCRCPY_KNOWN_CODECS (scrcpy_protocol.py line 18). -/
def SCRCPY_KNOWN_CODECS : List Nat :=
  [SCRCPY_CODEC_H264, SCRCPY_CODEC_H265, SCRCPY_CODEC_AV1]

/-- ScrcpyVideoStreamMetadata (scrcpy_protocol.py lines 24-29). -/
structure ScrcpyVideoStreamMetadata where
  device_name : Option String
  width : Option Nat
  height : Option Nat
  codec : Nat
deriving DecidableEq, Repr

/-- Big-endian 32-bit value of four bytes. -/
def be32 (b0 b1 b2 b3 : Nat) : Nat :=
  (b0 % 256) * 16777216 + (b1 % 256) * 65536 + (b2 % 256) * 256 + b3 % 256

/-- Modelled from the spec: `ScrcpyStreamer.read_video_metadata`, invoked by
socketio_server.connect_device (socketio_server.py line 107), is absent from
src/ — only its caller and the codec tables it consults (scrcpy_protocol.py)
are present.  Following the spec's handshake description, this models the
codec/dimension portion that begins after the optional placeholder byte and
the 64-byte device-name field (the already-parsed name is passed through):
a 4-byte big-endian codec tag in the known set is followed by 4-byte
big-endian width and height; an unrecognized 4-byte value is the legacy
fallback — width is its high 16 bits, height its low 16 bits, and the codec
defaults to the configured codec. -/
def read_video_metadata (configured_codec : Nat) (device_name : Option String)
    (bs : List Nat) : Option ScrcpyVideoStreamMetadata :=
  match bs with
  | c0 :: c1 :: c2 :: c3 :: rest =>
    let tag := be32 c0 c1 c2 c3
    if tag ∈ SCRCPY_KNOWN_CODECS then
      match rest with
      | w0 :: w1 :: w2 :: w3 :: h0 :: h1 :: h2 :: h3 :: _ =>
        some
          { device_name := device_name
            width := some (be32 w0 w1 w2 w3)
            height := some (be32 h0 h1 h2 h3)
            codec := tag }
      | _ => none
    else
      some
        { device_name := device_name
          width := some (tag / 65536)
          height := some (tag % 65536)
          codec := configured_codec }
  | _ => none

/-! ### Concrete fixtures for the worked examples -/

/-- A twelve-byte SPS unit: 4-byte start code, type-7 header byte, payload. -/
def sps12 : List Nat := [0, 0, 0, 1, 0x67, 1, 2, 3, 4, 5, 6, 7]

/-- An eight-byte PPS unit: 4-byte start code, type-8 header byte, payload. -/
def pps8 : List Nat := [0, 0, 0, 1, 0x68, 1, 2, 3]

/-- A stream-start chunk holding one complete SPS and one complete PPS. -/
def initialParamData : List Nat := sps12 ++ pps8

/-- A twenty-byte SPS unit as it might appear later in the stream. -/
def sps20 : List Nat :=
  [0, 0, 0, 1, 0x67, 7, 7, 7, 7, 7, 7, 7, 7, 7, 7, 7, 7, 7, 7, 7]

/-- A chunk holding two complete ten-byte IDR (type-5) units, each delimited
by a start code (the second by the buffer end). -/
def idrOnlyData : List Nat :=
  [0, 0, 0, 1, 0x65, 9, 9, 9, 9, 9, 0, 0, 0, 1, 0x65, 8, 8, 8, 8, 8]

/-- Example connection list: a USB connection with status "device" (score 330)
and a WiFi connection with status "offline" (score 220). -/
def exampleConnections : List DeviceConnection :=
  [{ device_id := "usb-serial", connection_type := .usb, status := "device" },
   { device_id := "192.168.1.20:5555", connection_type := .wifi,
     status := "offline" }]

/-- A manager with one initialized agent for device "dev-1", lock free. -/
def ready_mgr : MgrState :=
  { initial_mgr with
    agents := upd initial_mgr.agents "dev-1" (some { context := [1, 2], step_count := 3 }) }

/-- A manager with one initialized agent for device "dev-1" whose lock is held
by operation 1. -/
def busy_mgr : MgrState :=
  { ready_mgr with holders := upd ready_mgr.holders "dev-1" [1] }

/-- An example model configuration. -/
def exampleModelConfig : ModelConfig :=
  { base_url := "http://localhost:8000", api_key := "key", model_name := "m" }

/-- An example agent configuration. -/
def exampleAgentConfig : AgentConfig := { device_id := "dev-1" }

/-- Example lock-event trace: two competing non-blocking acquisitions on the
same device followed by a release. -/
def exampleLockEvs : List LockEv :=
  [.tryAcquire "dev-1" 1 .nonBlocking true 0,
   .tryAcquire "dev-1" 2 .nonBlocking true 0,
   .release "dev-1"]

/-! ## Theorems -/

theorem connSortLe_total (a b : Nat × DeviceConnection) :
    (connSortLe a b || connSortLe b a) = true := by
  simp only [connSortLe, Bool.or_eq_true, decide_eq_true_eq]
  omega

theorem connSortLe_trans (a b c : Nat × DeviceConnection)
    (hab : connSortLe a b = true) (hbc : connSortLe b c = true) :
    connSortLe a c = true := by
  simp only [connSortLe, decide_eq_true_eq] at hab hbc ⊢
  omega

/-- Primary selection returns the index of the first connection attaining the
maximal priority score. -/
theorem select_primary_first_max (conns : List DeviceConnection) (idx : Nat)
    (hne : conns ≠ []) :
    ∃ c, conns[select_primary_connection conns idx]? = some c ∧
      (∀ (j : Nat) (cj : DeviceConnection), conns[j]? = some cj →
          priority_score cj ≤ priority_score c) ∧
      (∀ (j : Nat) (cj : DeviceConnection), conns[j]? = some cj →
          j < select_primary_connection conns idx →
          priority_score cj < priority_score c) := by
  have hperm := List.mergeSort_perm conns.enum connSortLe
  have hsorted := List.sorted_mergeSort
    (fun a b c hab hbc => connSortLe_trans a b c hab hbc)
    (fun a b => connSortLe_total a b) conns.enum
  have hlen : (conns.enum.mergeSort connSortLe).length = conns.length := by
    rw [hperm.length_eq, List.enum_length]
  match hS : conns.enum.mergeSort connSortLe with
  | [] =>
    exfalso
    have : conns.length = 0 := by rw [← hlen, hS]; rfl
    exact hne (List.length_eq_zero.mp this)
  | (i0, c0) :: rest =>
    have hsel : select_primary_connection conns idx = i0 := by
      unfold select_primary_connection
      rw [if_neg (by simp [List.isEmpty_iff, hne]), hS]
      rfl
    have hhead_mem : (i0, c0) ∈ conns.enum := by
      rw [← hperm.mem_iff, hS]; exact List.mem_cons_self _ _
    have hget : conns[i0]? = some c0 := List.mem_enum_iff_getElem?.mp hhead_mem
    rw [hS] at hsorted
    refine ⟨c0, by rw [hsel]; exact hget, ?_, ?_⟩
    · intro j cj hj
      have hmem : (j, cj) ∈ conns.enum := List.mem_enum_iff_getElem?.mpr hj
      have hmem' : (j, cj) ∈ (i0, c0) :: rest := by
        rw [← hS, hperm.mem_iff]; exact hmem
      rcases List.mem_cons.mp hmem' with heq | hrest
      · cases heq
        exact le_refl _
      · have hle := List.rel_of_pairwise_cons hsorted hrest
        have hle' : priority_score cj < priority_score c0 ∨
            (priority_score c0 = priority_score cj ∧ i0 ≤ j) := by
          simpa [connSortLe, decide_eq_true_eq] using hle
        omega
    · intro j cj hj hjlt
      rw [hsel] at hjlt
      have hmem : (j, cj) ∈ conns.enum := List.mem_enum_iff_getElem?.mpr hj
      have hmem' : (j, cj) ∈ (i0, c0) :: rest := by
        rw [← hS, hperm.mem_iff]; exact hmem
      rcases List.mem_cons.mp hmem' with heq | hrest
      · have : j = i0 := congrArg Prod.fst heq
        omega
      · have hle := List.rel_of_pairwise_cons hsorted hrest
        have hle' : priority_score cj < priority_score c0 ∨
            (priority_score c0 = priority_score cj ∧ i0 ≤ j) := by
          simpa [connSortLe, decide_eq_true_eq] using hle
        omega

/-- C2: the connection priority score is the pure sum of a transport priority
(USB, the spec's CABLE, 300; WIFI and REMOTE, the spec's NETWORK, 200;
anything else, the spec's DISCOVERED, 0) and a liveness priority ("device" =
READY 30, "offline" = UNRESPONSIVE 20, "unauthorized" = UNAUTHORIZED 10);
primary selection picks the highest-scoring connection with ties broken by
list order (first index attaining the maximum); in particular for the list
[{CABLE,READY},{NETWORK,UNRESPONSIVE}] the primary is the CABLE connection at
index 0 (score 330 against 220). -/
theorem connection_priority_selection :
    (∀ id : String,
      priority_score { device_id := id, connection_type := .usb, status := "device" } = 330 ∧
      priority_score { device_id := id, connection_type := .usb, status := "offline" } = 320 ∧
      priority_score { device_id := id, connection_type := .usb, status := "unauthorized" } = 310 ∧
      priority_score { device_id := id, connection_type := .wifi, status := "device" } = 230 ∧
      priority_score { device_id := id, connection_type := .wifi, status := "offline" } = 220 ∧
      priority_score { device_id := id, connection_type := .wifi, status := "unauthorized" } = 210 ∧
      priority_score { device_id := id, connection_type := .remote, status := "device" } = 230 ∧
      priority_score { device_id := id, connection_type := .other, status := "device" } = 30 ∧
      priority_score { device_id := id, connection_type := .other, status := "offline" } = 20 ∧
      priority_score { device_id := id, connection_type := .other, status := "unauthorized" } = 10) ∧
    (∀ (conns : List DeviceConnection) (idx : Nat), conns ≠ [] →
      ∃ c, conns[select_primary_connection conns idx]? = some c ∧
        (∀ (j : Nat) (cj : DeviceConnection), conns[j]? = some cj →
            priority_score cj ≤ priority_score c) ∧
        (∀ (j : Nat) (cj : DeviceConnection), conns[j]? = some cj →
            j < select_primary_connection conns idx →
            priority_score cj < priority_score c)) ∧
    (select_primary_connection exampleConnections 0 = 0 ∧
      priority_score
        { device_id := "usb-serial", connection_type := .usb, status := "device" } = 330 ∧
      priority_score
        { device_id := "192.168.1.20:5555", connection_type := .wifi,
          status := "offline" } = 220) := by
  refine ⟨fun id => ⟨rfl, rfl, rfl, rfl, rfl, rfl, rfl, rfl, rfl, rfl⟩,
    select_primary_first_max, ?_, by decide, by decide⟩
  simp [select_primary_connection, exampleConnections, List.mergeSort,
    connSortLe, priority_score, List.enum]

/-- Closed instantiation of connection_priority_selection on the example
connection list. -/
theorem connection_priority_selection_witness :
    ∃ c, exampleConnections[select_primary_connection exampleConnections 0]? = some c ∧
      (∀ (j : Nat) (cj : DeviceConnection), exampleConnections[j]? = some cj →
          priority_score cj ≤ priority_score c) ∧
      (∀ (j : Nat) (cj : DeviceConnection), exampleConnections[j]? = some cj →
          j < select_primary_connection exampleConnections 0 →
          priority_score cj < priority_score c) :=
  connection_priority_selection.2.1 exampleConnections 0 (by decide)

/-- C3: after each failed poll cycle the interval becomes
min(base * multiplier ^ consecutiveFailures, cap); from a fresh state (base
10s, multiplier 2, cap 60s) five consecutive failures yield the interval
sequence 20, 40, 60, 60, 60 seconds; a cycle that completes without exception
resets the failure count to 0 and the interval to the base value. -/
theorem poll_backoff_spec :
    (∀ s : PollBackoffState,
      (handle_poll_error s).consecutive_failures = s.consecutive_failures + 1 ∧
      (handle_poll_error s).current_interval =
        min (s.min_interval * s.backoff_multiplier ^ (s.consecutive_failures + 1))
          s.max_interval) ∧
    ((List.range 5).map
        (fun k => (handle_poll_error^[k + 1] initial_backoff).current_interval) =
      [20, 40, 60, 60, 60]) ∧
    (∀ s : PollBackoffState,
      (polling_loop_success s).consecutive_failures = 0 ∧
      (polling_loop_success s).current_interval = s.min_interval) := by
  refine ⟨fun s => ⟨rfl, rfl⟩, ?_, fun s => ⟨rfl, rfl⟩⟩
  norm_num [List.range_succ, Function.iterate_succ_apply, handle_poll_error,
    initial_backoff]

theorem acquire_device_fst_holders (s : MgrState) (d : String) (tid : Nat)
    (p : TimeoutPolicy) (r : Bool) (now : Nat) :
    ((acquire_device s d tid p r now).1).holders =
      if s.agents d ≠ none ∧ s.holders d = [] then upd s.holders d [tid]
      else s.holders := by
  unfold acquire_device
  by_cases h1 : s.agents d = none
  · simp [h1]
  · by_cases h2 : s.holders d = []
    · simp [h1, h2]
    · cases p with
      | blocking => simp [h1, h2]
      | nonBlocking => simp [h1, h2]
      | bounded e => cases e <;> simp [h1, h2]

theorem release_device_holders (s : MgrState) (d : String) :
    (release_device s d).holders =
      if s.holders d = [] then s.holders else upd s.holders d [] := by
  unfold release_device
  split_ifs <;> rfl

theorem holders_length_applyLockEv (s : MgrState) (e : LockEv)
    (h : ∀ d, (s.holders d).length ≤ 1) :
    ∀ d, ((applyLockEv s e).holders d).length ≤ 1 := by
  intro d
  cases e with
  | tryAcquire d0 tid p r now =>
    have : (applyLockEv s (.tryAcquire d0 tid p r now)).holders =
        (acquire_device s d0 tid p r now).1.holders := rfl
    rw [this, acquire_device_fst_holders]
    split_ifs with hc
    · by_cases hd : d = d0
      · subst hd; simp [upd]
      · simpa [upd, hd] using h d
    · exact h d
  | release d0 =>
    have : (applyLockEv s (.release d0)).holders =
        (release_device s d0).holders := rfl
    rw [this, release_device_holders]
    split_ifs with hc
    · exact h d
    · by_cases hd : d = d0
      · subst hd; simp [upd]
      · simpa [upd, hd] using h d

/-- C1: along any sequence of acquisition and release events, each device's
lock has at most one holder at every instant; and an acquisition attempt made
while the lock is held, under a non-blocking or expired bounded-wait policy,
observes the DeviceBusy outcome (the DeviceBusyError exception, or False when
raise_on_timeout is off) and leaves the state unchanged, rather than being
queued. -/
theorem device_lock_mutual_exclusion :
    (∀ (s : MgrState) (es : List LockEv), (∀ d, (s.holders d).length ≤ 1) →
      ∀ d, ((applyLockEvents s es).holders d).length ≤ 1) ∧
    (∀ (s : MgrState) (d : String) (tid : Nat) (p : TimeoutPolicy) (r : Bool)
      (now : Nat), s.agents d ≠ none → s.holders d ≠ [] →
      (p = .nonBlocking ∨ p = .bounded true) →
      acquire_device s d tid p r now =
        (s, if r then .busyError else .busyFalse)) := by
  constructor
  · intro s es
    induction es generalizing s with
    | nil => intro h d; exact h d
    | cons e es ih =>
      intro h d
      exact ih (applyLockEv s e) (holders_length_applyLockEv s e h) d
  · intro s d tid p r now h1 h2 hp
    unfold acquire_device
    rcases hp with hp | hp <;> subst hp <;> simp [h1, h2]

/-- Closed instantiation of device_lock_mutual_exclusion: the example trace
from a fresh manager, and a concrete busy non-blocking attempt by operation 2
while operation 1 holds the lock. -/
theorem device_lock_mutual_exclusion_witness :
    (∀ d, ((applyLockEvents initial_mgr exampleLockEvs).holders d).length ≤ 1) ∧
    acquire_device busy_mgr "dev-1" 2 .nonBlocking true 0 =
      (busy_mgr, .busyError) :=
  ⟨device_lock_mutual_exclusion.1 initial_mgr exampleLockEvs
      (fun d => by simp [initial_mgr]),
    device_lock_mutual_exclusion.2 busy_mgr "dev-1" 2 .nonBlocking true 0
      (by simp [busy_mgr, ready_mgr, initial_mgr, upd])
      (by simp [busy_mgr, ready_mgr, initial_mgr, upd])
      (Or.inl rfl)⟩

/-- C10: release_device frees the per-device lock whenever it is held and
sets the device state to IDLE; the function receives no caller identity and
performs no ownership check, so a call from any context — including one whose
own acquisition failed with DeviceBusy — ends the holder's exclusivity. -/
theorem release_device_no_ownership_check :
    ∀ (s : MgrState) (d : String), s.holders d ≠ [] →
      (release_device s d).holders d = [] ∧
      (release_device s d).states d = some .idle := by
  intro s d h
  unfold release_device
  rw [if_neg h]
  exact ⟨by simp [upd], by simp [upd]⟩

/-- Closed instantiation of release_device_no_ownership_check: a release
issued against busy_mgr (whose lock is held by operation 1) frees the lock. -/
theorem release_device_no_ownership_check_witness :
    (release_device busy_mgr "dev-1").holders "dev-1" = [] ∧
    (release_device busy_mgr "dev-1").states "dev-1" = some .idle :=
  release_device_no_ownership_check busy_mgr "dev-1"
    (by simp [busy_mgr, ready_mgr, initial_mgr, upd])

theorem initialize_agent_reaches_body (s : MgrState) (d : String)
    (mc : ModelConfig) (ac : AgentConfig) (force : Bool)
    (ctor : Option PhoneAgent) (now : Nat)
    (hreach : s.agents d = none ∨ force = true) :
    initialize_agent s d mc ac force ctor now =
      initialize_agent_body s d mc ac ctor now := by
  unfold initialize_agent
  rcases hreach with h | h
  · rw [h]
  · rw [h]
    cases hA : s.agents d <;> simp

/-- C5: whenever initialize_agent goes past its idempotency early return, a
held device lock makes it fail with DeviceBusy — the locked() check is
non-blocking and the state is returned unchanged; on construction failure all
registrations are rolled back (agent entry removed, configuration entry
removed, device state set to ERROR); on construction success the caller
observes a fully live session (agent, configuration and IDLE state present). -/
theorem initialize_agent_busy_and_rollback :
    (∀ (s : MgrState) (d : String) (mc : ModelConfig) (ac : AgentConfig)
      (force : Bool) (ctor : Option PhoneAgent) (now : Nat),
      (s.agents d = none ∨ force = true) → s.holders d ≠ [] →
      initialize_agent s d mc ac force ctor now = (s, .error .deviceBusy)) ∧
    (∀ (s : MgrState) (d : String) (mc : ModelConfig) (ac : AgentConfig)
      (force : Bool) (now : Nat),
      (s.agents d = none ∨ force = true) → s.holders d = [] →
      (initialize_agent s d mc ac force none now).2 =
        .error .initializationFailed ∧
      (initialize_agent s d mc ac force none now).1.agents d = none ∧
      (initialize_agent s d mc ac force none now).1.agent_configs d = none ∧
      (initialize_agent s d mc ac force none now).1.states d = some .error) ∧
    (∀ (s : MgrState) (d : String) (mc : ModelConfig) (ac : AgentConfig)
      (force : Bool) (a : PhoneAgent) (now : Nat),
      (s.agents d = none ∨ force = true) → s.holders d = [] →
      (initialize_agent s d mc ac force (some a) now).2 = .ok a ∧
      (initialize_agent s d mc ac force (some a) now).1.agents d = some a ∧
      (initialize_agent s d mc ac force (some a) now).1.agent_configs d =
        some (mc, ac) ∧
      (initialize_agent s d mc ac force (some a) now).1.states d =
        some .idle) := by
  refine ⟨?_, ?_, ?_⟩
  · intro s d mc ac force ctor now hreach hheld
    rw [initialize_agent_reaches_body s d mc ac force ctor now hreach]
    unfold initialize_agent_body
    rw [if_pos hheld]
  · intro s d mc ac force now hreach hfree
    rw [initialize_agent_reaches_body s d mc ac force none now hreach]
    unfold initialize_agent_body
    rw [if_neg (by simp [hfree])]
    exact ⟨rfl, by simp [upd], by simp [upd], by simp [upd]⟩
  · intro s d mc ac force a now hreach hfree
    rw [initialize_agent_reaches_body s d mc ac force (some a) now hreach]
    unfold initialize_agent_body
    rw [if_neg (by simp [hfree])]
    exact ⟨rfl, by simp [upd], by simp [upd], by simp [upd]⟩

/-- Closed instantiation of initialize_agent_busy_and_rollback: a forced
re-initialization against the held lock of busy_mgr fails DeviceBusy with the
state unchanged; a failed construction on a fresh manager leaves no agent and
an ERROR state; a successful construction leaves a live agent. -/
theorem initialize_agent_busy_and_rollback_witness :
    initialize_agent busy_mgr "dev-1" exampleModelConfig exampleAgentConfig
        true none 0 = (busy_mgr, .error .deviceBusy) ∧
    (initialize_agent initial_mgr "dev-1" exampleModelConfig exampleAgentConfig
        false none 0).1.agents "dev-1" = none ∧
    (initialize_agent initial_mgr "dev-1" exampleModelConfig exampleAgentConfig
        false none 0).1.states "dev-1" = some .error ∧
    (initialize_agent initial_mgr "dev-1" exampleModelConfig exampleAgentConfig
        false (some { context := [], step_count := 0 }) 0).1.agents "dev-1" =
      some { context := [], step_count := 0 } := by
  refine ⟨?_, ?_, ?_, ?_⟩
  · exact initialize_agent_busy_and_rollback.1 busy_mgr "dev-1"
      exampleModelConfig exampleAgentConfig true none 0 (Or.inr rfl)
      (by simp [busy_mgr, ready_mgr, initial_mgr, upd])
  · exact (initialize_agent_busy_and_rollback.2.1 initial_mgr "dev-1"
      exampleModelConfig exampleAgentConfig false 0 (Or.inl rfl) rfl).2.1
  · exact (initialize_agent_busy_and_rollback.2.1 initial_mgr "dev-1"
      exampleModelConfig exampleAgentConfig false 0 (Or.inl rfl) rfl).2.2.2
  · exact (initialize_agent_busy_and_rollback.2.2 initial_mgr "dev-1"
      exampleModelConfig exampleAgentConfig false
      { context := [], step_count := 0 } 0 (Or.inl rfl) rfl).2.1

theorem release_device_agents (s : MgrState) (d : String) :
    (release_device s d).agents = s.agents := by
  unfold release_device
  split_ifs <;> rfl

/-- C4: for a streaming turn that acquires the device lock, if the turn is
cancelled (the stop event is set) the canonical agent's working context and
step counter are left byte-for-byte identical to their pre-turn values; if
the turn completes without cancellation, the private copy's working context
and step counter are copied back onto the canonical agent; and the device
lock is released on exit in both cases. -/
theorem streaming_turn_context_sync :
    ∀ (s : MgrState) (d : String) (tid now : Nat) (tp : TimeoutPolicy)
      (body : PhoneAgent → PhoneAgent × Bool) (orig : PhoneAgent),
      s.agents d = some orig → s.holders d = [] →
      (((body orig).2 = true →
          (use_streaming_agent s d tid tp body now).1.agents d = some orig) ∧
        ((body orig).2 = false →
          (use_streaming_agent s d tid tp body now).1.agents d =
            some (body orig).1) ∧
        (use_streaming_agent s d tid tp body now).1.holders d = []) := by
  intro s d tid now tp body orig hA hfree
  have hacq : acquire_device s d tid tp true now =
      ({ s with
          holders := upd s.holders d [tid]
          states := upd s.states d (some .busy)
          metadata := upd s.metadata d
            ((s.metadata d).map (fun m => { m with last_used := now })) },
        .acquired) := by
    unfold acquire_device
    rw [if_neg (by simp [hA]), if_pos hfree]
  unfold use_streaming_agent
  rw [hacq]
  dsimp only
  rw [hA]
  dsimp only
  refine ⟨?_, ?_, ?_⟩
  · intro hstop
    rw [release_device_agents]
    simp [hstop, hA, upd]
  · intro hgo
    rw [release_device_agents]
    simp [hgo, hA, upd]
  · rw [release_device_holders]
    by_cases hb : (body orig).2 <;> simp [hb, upd]

/-- Closed instantiation of streaming_turn_context_sync on ready_mgr: a
cancelled turn leaves the canonical context [1, 2] and counter 3 untouched, a
completed turn installs the private copy's [9, 9] and 7, and the lock ends
free. -/
theorem streaming_turn_context_sync_witness :
    (use_streaming_agent ready_mgr "dev-1" 5 .nonBlocking
        (fun a => (a, true)) 0).1.agents "dev-1" =
      some { context := [1, 2], step_count := 3 } ∧
    (use_streaming_agent ready_mgr "dev-1" 5 .nonBlocking
        (fun _ => ({ context := [9, 9], step_count := 7 }, false)) 0).1.agents
        "dev-1" = some { context := [9, 9], step_count := 7 } ∧
    (use_streaming_agent ready_mgr "dev-1" 5 .nonBlocking
        (fun a => (a, true)) 0).1.holders "dev-1" = [] := by
  refine ⟨?_, ?_, ?_⟩
  · exact (streaming_turn_context_sync ready_mgr "dev-1" 5 0 .nonBlocking
      (fun a => (a, true)) { context := [1, 2], step_count := 3 }
      (by simp [ready_mgr, initial_mgr, upd]) rfl).1 rfl
  · exact (streaming_turn_context_sync ready_mgr "dev-1" 5 0 .nonBlocking
      (fun _ => ({ context := [9, 9], step_count := 7 }, false))
      { context := [1, 2], step_count := 3 }
      (by simp [ready_mgr, initial_mgr, upd]) rfl).2.1 rfl
  · exact (streaming_turn_context_sync ready_mgr "dev-1" 5 0 .nonBlocking
      (fun a => (a, true)) { context := [1, 2], step_count := 3 }
      (by simp [ready_mgr, initial_mgr, upd]) rfl).2.2

theorem cache_nal_step_locked_flag (data : List Nat) (st : ScrcpyCache)
    (u : Nat × Nat × Nat) :
    (cache_nal_step data st u).sps_pps_locked = st.sps_pps_locked := by
  unfold cache_nal_step
  split_ifs <;> rfl

theorem cache_nal_step_sps_some (data : List Nat) (st : ScrcpyCache)
    (u : Nat × Nat × Nat) (x : List Nat) (h : st.cached_sps = some x) :
    (cache_nal_step data st u).cached_sps = some x := by
  unfold cache_nal_step
  split_ifs <;> simp_all

theorem cache_nal_step_pps_some (data : List Nat) (st : ScrcpyCache)
    (u : Nat × Nat × Nat) (x : List Nat) (h : st.cached_pps = some x) :
    (cache_nal_step data st u).cached_pps = some x := by
  unfold cache_nal_step
  split_ifs <;> simp_all

theorem cache_nal_step_locked_pair (data : List Nat) (st : ScrcpyCache)
    (u : Nat × Nat × Nat) (h : st.sps_pps_locked = true) :
    (cache_nal_step data st u).cached_sps = st.cached_sps ∧
    (cache_nal_step data st u).cached_pps = st.cached_pps := by
  unfold cache_nal_step
  split_ifs <;> simp_all

theorem foldl_cache_locked_flag (data : List Nat)
    (units : List (Nat × Nat × Nat)) : ∀ st : ScrcpyCache,
    (units.foldl (cache_nal_step data) st).sps_pps_locked =
      st.sps_pps_locked := by
  induction units with
  | nil => intro st; rfl
  | cons u us ih =>
    intro st
    rw [List.foldl_cons, ih (cache_nal_step data st u),
      cache_nal_step_locked_flag]

theorem foldl_cache_sps_some (data : List Nat)
    (units : List (Nat × Nat × Nat)) : ∀ (st : ScrcpyCache) (x : List Nat),
    st.cached_sps = some x →
    (units.foldl (cache_nal_step data) st).cached_sps = some x := by
  induction units with
  | nil => intro st x h; exact h
  | cons u us ih =>
    intro st x h
    exact ih _ x (cache_nal_step_sps_some data st u x h)

theorem foldl_cache_pps_some (data : List Nat)
    (units : List (Nat × Nat × Nat)) : ∀ (st : ScrcpyCache) (x : List Nat),
    st.cached_pps = some x →
    (units.foldl (cache_nal_step data) st).cached_pps = some x := by
  induction units with
  | nil => intro st x h; exact h
  | cons u us ih =>
    intro st x h
    exact ih _ x (cache_nal_step_pps_some data st u x h)

theorem foldl_cache_locked_pair (data : List Nat)
    (units : List (Nat × Nat × Nat)) : ∀ st : ScrcpyCache,
    st.sps_pps_locked = true →
    (units.foldl (cache_nal_step data) st).cached_sps = st.cached_sps ∧
    (units.foldl (cache_nal_step data) st).cached_pps = st.cached_pps := by
  induction units with
  | nil => intro st _; exact ⟨rfl, rfl⟩
  | cons u us ih =>
    intro st h
    have hstep := cache_nal_step_locked_pair data st u h
    have hlock : (cache_nal_step data st u).sps_pps_locked = true := by
      rw [cache_nal_step_locked_flag]; exact h
    have hrest := ih (cache_nal_step data st u) hlock
    rw [List.foldl_cons]
    exact ⟨by rw [hrest.1, hstep.1], by rw [hrest.2, hstep.2]⟩

theorem lock_after_pass_fields (t : ScrcpyCache) :
    (lock_after_pass t).cached_sps = t.cached_sps ∧
    (lock_after_pass t).cached_pps = t.cached_pps ∧
    (lock_after_pass t).cached_idr = t.cached_idr := by
  unfold lock_after_pass
  split_ifs <;> exact ⟨rfl, rfl, rfl⟩

theorem lock_after_pass_flag (t : ScrcpyCache) :
    (lock_after_pass t).sps_pps_locked = true ↔
      (t.sps_pps_locked = true ∨
        (t.cached_sps ≠ none ∧ t.cached_pps ≠ none)) := by
  unfold lock_after_pass
  split_ifs with hc
  · simp only [true_iff]
    exact Or.inr ⟨hc.1, hc.2.1⟩
  · constructor
    · exact fun h => Or.inl h
    · intro h
      rcases h with h | h
      · exact h
      · rcases Bool.eq_false_or_eq_true t.sps_pps_locked with ht | hf
        · exact ht
        · exact absurd ⟨h.1, h.2, hf⟩ hc

/-- C6: an SPS unit is accepted into the cache only while the pair is not
locked, only if its size is at least 10 and no SPS is cached yet; a PPS only
while not locked, at least 6 bytes, none cached yet; a cached parameter set is
never replaced; once both are cached after a pass the pair is locked, and a
locked pair survives every later pass unchanged, whatever SPS or PPS units
(of any size) the later data contains. -/
theorem sps_pps_capture_lock :
    (∀ (st : ScrcpyCache) (data : List Nat), st.sps_pps_locked = true →
      (cache_nal_units st data).cached_sps = st.cached_sps ∧
      (cache_nal_units st data).cached_pps = st.cached_pps ∧
      (cache_nal_units st data).sps_pps_locked = true) ∧
    (∀ (st : ScrcpyCache) (data : List Nat) (x : List Nat),
      st.cached_sps = some x → (cache_nal_units st data).cached_sps = some x) ∧
    (∀ (st : ScrcpyCache) (data : List Nat) (x : List Nat),
      st.cached_pps = some x → (cache_nal_units st data).cached_pps = some x) ∧
    (∀ (st : ScrcpyCache) (data : List Nat),
      (cache_nal_units st data).cached_sps ≠ none →
      (cache_nal_units st data).cached_pps ≠ none →
      (cache_nal_units st data).sps_pps_locked = true) ∧
    (∀ (data : List Nat) (st : ScrcpyCache) (u : Nat × Nat × Nat),
      (cache_nal_step data st u).cached_sps ≠ st.cached_sps →
      st.sps_pps_locked = false ∧ st.cached_sps = none ∧
        u.2.1 = 7 ∧ 10 ≤ u.2.2) ∧
    (∀ (data : List Nat) (st : ScrcpyCache) (u : Nat × Nat × Nat),
      (cache_nal_step data st u).cached_pps ≠ st.cached_pps →
      st.sps_pps_locked = false ∧ st.cached_pps = none ∧
        u.2.1 = 8 ∧ 6 ≤ u.2.2) := by
  refine ⟨?_, ?_, ?_, ?_, ?_, ?_⟩
  · intro st data h
    unfold cache_nal_units
    have hpair := foldl_cache_locked_pair data (find_nal_units data) st h
    have hflag : ((find_nal_units data).foldl (cache_nal_step data)
        st).sps_pps_locked = true := by
      rw [foldl_cache_locked_flag]; exact h
    have hf := lock_after_pass_fields
      ((find_nal_units data).foldl (cache_nal_step data) st)
    refine ⟨by rw [hf.1, hpair.1], by rw [hf.2.1, hpair.2], ?_⟩
    rw [lock_after_pass_flag]
    exact Or.inl hflag
  · intro st data x h
    unfold cache_nal_units
    rw [(lock_after_pass_fields _).1]
    exact foldl_cache_sps_some data (find_nal_units data) st x h
  · intro st data x h
    unfold cache_nal_units
    rw [(lock_after_pass_fields _).2.1]
    exact foldl_cache_pps_some data (find_nal_units data) st x h
  · intro st data h1 h2
    unfold cache_nal_units at h1 h2 ⊢
    rw [(lock_after_pass_fields _).1] at h1
    rw [(lock_after_pass_fields _).2.1] at h2
    rw [lock_after_pass_flag]
    exact Or.inr ⟨h1, h2⟩
  · intro data st u h
    unfold cache_nal_step at h
    constructor
    · by_cases hl : st.sps_pps_locked = true
      · exfalso; revert h; split_ifs <;> simp_all
      · simpa using hl
    · revert h; split_ifs <;> simp_all
  · intro data st u h
    unfold cache_nal_step at h
    constructor
    · by_cases hl : st.sps_pps_locked = true
      · exfalso; revert h; split_ifs <;> simp_all
      · simpa using hl
    · revert h; split_ifs <;> simp_all

/-- Closed instantiation of sps_pps_capture_lock: the stream-start chunk
caches the 12-byte SPS and 8-byte PPS and locks the pair; a later pass over a
20-byte SPS leaves the cached pair unchanged. -/
theorem sps_pps_capture_lock_witness :
    (cache_nal_units initial_cache initialParamData).cached_sps = some sps12 ∧
    (cache_nal_units initial_cache initialParamData).cached_pps = some pps8 ∧
    (cache_nal_units initial_cache initialParamData).sps_pps_locked = true ∧
    (cache_nal_units (cache_nal_units initial_cache initialParamData)
        sps20).cached_sps = some sps12 ∧
    (cache_nal_units (cache_nal_units initial_cache initialParamData)
        sps20).cached_pps = some pps8 := by
  refine ⟨by decide, by decide, by decide, ?_, ?_⟩
  · exact sps_pps_capture_lock.2.1 (cache_nal_units initial_cache
      initialParamData) sps20 sps12 (by decide)
  · exact sps_pps_capture_lock.2.2.1 (cache_nal_units initial_cache
      initialParamData) sps20 pps8 (by decide)

/-- C7: counterexample.  The claim asserts the keyframe cache always holds
the most recently seen complete type-5 unit, before and after the lock is
set; but the IDR branch of _cache_nal_units is also conditional on both
parameter sets being cached already.  Here a fresh cache scans a chunk
containing two complete type-5 units, yet the keyframe cache stays empty. -/
theorem keyframe_latest_claim_counterexample :
    find_nal_units idrOnlyData = [(0, 5, 10), (10, 5, 10)] ∧
    (cache_nal_units initial_cache idrOnlyData).cached_idr = none :=
  ⟨by decide, by decide⟩

theorem cache_nal_step_of_pair (data : List Nat) (st : ScrcpyCache)
    (u : Nat × Nat × Nat) (h1 : st.cached_sps ≠ none)
    (h2 : st.cached_pps ≠ none) :
    cache_nal_step data st u =
      { st with cached_idr :=
          if u.2.1 = 5 then some ((data.drop u.1).take u.2.2)
          else st.cached_idr } := by
  unfold cache_nal_step
  cases st
  split_ifs <;> simp_all

theorem cache_nal_step_idr_of_incomplete (data : List Nat) (st : ScrcpyCache)
    (u : Nat × Nat × Nat) (h : st.cached_sps = none ∨ st.cached_pps = none) :
    (cache_nal_step data st u).cached_idr = st.cached_idr := by
  unfold cache_nal_step
  rcases h with h | h <;> split_ifs <;> simp_all

theorem foldl_cache_idr (data : List Nat) (units : List (Nat × Nat × Nat)) :
    ∀ st : ScrcpyCache, st.cached_sps ≠ none → st.cached_pps ≠ none →
    (units.foldl (cache_nal_step data) st).cached_idr =
      units.foldl
        (fun acc u =>
          if u.2.1 = 5 then some ((data.drop u.1).take u.2.2) else acc)
        st.cached_idr := by
  induction units with
  | nil => intro st _ _; rfl
  | cons u us ih =>
    intro st h1 h2
    rw [List.foldl_cons, List.foldl_cons,
      cache_nal_step_of_pair data st u h1 h2]
    exact ih _ h1 h2

/-- C7 amended: once both parameter sets are cached, every capture pass —
regardless of whether the pair is locked — leaves the keyframe cache holding
the most recently seen type-5 unit of the pass (or its previous value if the
pass has none); a type-5 unit observed while the SPS or the PPS is still
missing leaves the keyframe cache unchanged. -/
theorem keyframe_cache_amended :
    (∀ (st : ScrcpyCache) (data : List Nat),
      st.cached_sps ≠ none → st.cached_pps ≠ none →
      (cache_nal_units st data).cached_idr =
        last_idr_after data st.cached_idr) ∧
    (∀ (data : List Nat) (st : ScrcpyCache) (u : Nat × Nat × Nat),
      st.cached_sps = none ∨ st.cached_pps = none →
      (cache_nal_step data st u).cached_idr = st.cached_idr) := by
  constructor
  · intro st data h1 h2
    unfold cache_nal_units last_idr_after
    rw [(lock_after_pass_fields _).2.2]
    exact foldl_cache_idr data (find_nal_units data) st h1 h2
  · exact cache_nal_step_idr_of_incomplete

/-- Closed instantiation of keyframe_cache_amended: after the parameter sets
are cached and locked, a pass over two IDR units leaves the cache holding the
second, most recent one. -/
theorem keyframe_cache_amended_witness :
    (cache_nal_units (cache_nal_units initial_cache initialParamData)
        idrOnlyData).cached_idr =
      last_idr_after idrOnlyData
        (cache_nal_units initial_cache initialParamData).cached_idr ∧
    last_idr_after idrOnlyData
        (cache_nal_units initial_cache initialParamData).cached_idr =
      some [0, 0, 0, 1, 0x65, 8, 8, 8, 8, 8] :=
  ⟨keyframe_cache_amended.1 _ idrOnlyData (by decide) (by decide), by decide⟩

/-- C8: read_h264_chunk runs _cache_nal_units on every successful socket
read, with no parameter to disable it, even after the parameter-set pair is
locked — here a live read over a locked cache still executes the capture pass
and mutates the cache (the keyframe entry changes).  Its callers in
api/media.py (lines 123 and 218) pass `auto_cache=False` precisely to skip
this pass on live reads, but the method accepts no such argument, so those
calls raise TypeError at run time. -/
theorem locked_live_read_still_runs_capture :
    read_h264_chunk (cache_nal_units initial_cache initialParamData)
        idrOnlyData =
      .ok (cache_nal_units (cache_nal_units initial_cache initialParamData)
        idrOnlyData, idrOnlyData) ∧
    (cache_nal_units initial_cache initialParamData).sps_pps_locked = true ∧
    (cache_nal_units initial_cache initialParamData).cached_idr = none ∧
    (cache_nal_units (cache_nal_units initial_cache initialParamData)
        idrOnlyData).cached_idr = some [0, 0, 0, 1, 0x65, 8, 8, 8, 8, 8] :=
  ⟨rfl, by decide, by decide, by decide⟩

/-- C9: in the handshake, a 4-byte big-endian codec tag in the known set is
followed by a 4-byte big-endian width and a 4-byte big-endian height; an
unrecognized 4-byte value triggers the legacy fallback — width from its high
16 bits, height from its low 16 bits, codec from the configuration — so the
unrecognized tag 0x04000300 yields width 1024 and height 768; the tag for
"h264" is the big-endian reading of its ASCII bytes. -/
theorem handshake_metadata_parse :
    (∀ (cfg : Nat) (dn : Option String)
      (c0 c1 c2 c3 w0 w1 w2 w3 h0 h1 h2 h3 : Nat) (rest : List Nat),
      be32 c0 c1 c2 c3 ∈ SCRCPY_KNOWN_CODECS →
      read_video_metadata cfg dn
          (c0 :: c1 :: c2 :: c3 :: w0 :: w1 :: w2 :: w3 ::
            h0 :: h1 :: h2 :: h3 :: rest) =
        some
          { device_name := dn
            width := some (be32 w0 w1 w2 w3)
            height := some (be32 h0 h1 h2 h3)
            codec := be32 c0 c1 c2 c3 }) ∧
    (∀ (cfg : Nat) (dn : Option String) (c0 c1 c2 c3 : Nat) (rest : List Nat),
      be32 c0 c1 c2 c3 ∉ SCRCPY_KNOWN_CODECS →
      read_video_metadata cfg dn (c0 :: c1 :: c2 :: c3 :: rest) =
        some
          { device_name := dn
            width := some (be32 c0 c1 c2 c3 / 65536)
            height := some (be32 c0 c1 c2 c3 % 65536)
            codec := cfg }) ∧
    (∀ (cfg : Nat) (dn : Option String),
      read_video_metadata cfg dn [0x04, 0x00, 0x03, 0x00] =
        some
          { device_name := dn
            width := some 1024
            height := some 768
            codec := cfg }) ∧
    SCRCPY_CODEC_NAME_TO_ID "h264" = some SCRCPY_CODEC_H264 ∧
    be32 0x68 0x32 0x36 0x34 = SCRCPY_CODEC_H264 := by
  refine ⟨?_, ?_, fun cfg dn => rfl, rfl, rfl⟩
  · intro cfg dn c0 c1 c2 c3 w0 w1 w2 w3 h0 h1 h2 h3 rest hmem
    simp only [read_video_metadata]
    rw [if_pos hmem]
  · intro cfg dn c0 c1 c2 c3 rest hmem
    simp only [read_video_metadata]
    rw [if_neg hmem]

/-- Closed instantiation of handshake_metadata_parse: the known tag "h264"
followed by dimension bytes for 1280 by 720, and the unrecognized tag
0x04000300 under configured codec 7. -/
theorem handshake_metadata_parse_witness :
    read_video_metadata 0 (some "Pixel")
        [0x68, 0x32, 0x36, 0x34, 0, 0, 0x05, 0, 0, 0, 0x02, 0xd0] =
      some
        { device_name := some "Pixel"
          width := some (be32 0 0 0x05 0)
          height := some (be32 0 0 0x02 0xd0)
          codec := be32 0x68 0x32 0x36 0x34 } ∧
    read_video_metadata 7 none [0x04, 0x00, 0x03, 0x00] =
      some
        { device_name := none
          width := some (be32 0x04 0x00 0x03 0x00 / 65536)
          height := some (be32 0x04 0x00 0x03 0x00 % 65536)
          codec := 7 } :=
  ⟨handshake_metadata_parse.1 0 (some "Pixel")
      0x68 0x32 0x36 0x34 0 0 0x05 0 0 0 0x02 0xd0 [] (by decide),
    handshake_metadata_parse.2.1 7 none 0x04 0x00 0x03 0x00 [] (by decide)⟩

end AutoGLM
